import Mathlib

set_option maxRecDepth 4000

/- Verification development for the Lab_Software repository.

   Embedded sources:
   - "src/Version 0.2/WhiteLight.py" : the Tkinter GUI shell
     (class White_Light_Inteferometer, function Refresh, event bindings).
   - "src/LIA-master/zhinst/examples/common/example_connect_config.py"
   - "src/LIA-master/zhinst/examples/uhf/example_awg.py"

   Python floating point values are modelled as real or rational numbers,
   Python strings as Lean strings or lists of characters, and the values
   successively returned by a polled device node as a function from the
   read counter to the value. -/

namespace LabSoftware

/-! ## Embedding of the WhiteLight GUI (WhiteLight.py) -/

/-- Python exceptions raised by the embedded GUI code. -/
inductive PyErr
  | nameError (n : String)
  | typeError
  | attributeError (n : String)
  deriving DecidableEq, Repr

/-- Observable effects a GUI handler can perform. -/
inductive GuiEffect
  | dialog (icon title msg : String)
  | saveSettingsFile (path : String)
  | loadSettingsFile (path : String)
  | printed (s : String)
  | afterScheduled (delayMs : Nat)
  | copiedPIData
  | copiedZiData
  deriving DecidableEq, Repr

/-- Result of running a piece of Python code: the effects performed before
    normal completion or before an uncaught exception. -/
abbrev PyRun := List GuiEffect × Option PyErr

/-- Python truthiness of an optional device handle: None is falsy, a
    connected device data object is truthy. -/
def pyTruthy {α : Type} : Option α → Bool
  | none => false
  | some _ => true

/-- Embeds White_Light_Inteferometer.Save_Setting (WhiteLight.py lines
    125-143).  The guard is the literal Python condition
    `PI_Data or ZI_Data is None`, which parses as
    `PI_Data or (ZI_Data is None)`.  The warning branch evaluates the
    unbound name `messabox` and the elif condition evaluates the unbound
    name `Dir`, so every path raises NameError before any effect. -/
def Save_Setting {α β : Type} (PI_Data : Option α) (ZI_Data : Option β)
    (Folder : String) : PyRun :=
  if pyTruthy PI_Data || ZI_Data.isNone then
    ([], some (PyErr.nameError "messabox"))
  else
    ([], some (PyErr.nameError "Dir"))

/-- Embeds White_Light_Inteferometer.Load_Setting (WhiteLight.py lines
    145-163); same structure and same unbound names as Save_Setting. -/
def Load_Setting {α β : Type} (PI_Data : Option α) (ZI_Data : Option β)
    (Folder : String) : PyRun :=
  if pyTruthy PI_Data || ZI_Data.isNone then
    ([], some (PyErr.nameError "messabox"))
  else
    ([], some (PyErr.nameError "Dir"))

/-- Python positional-call arity check: calling a function whose signature
    has `nparams` parameters with `nargs` positional arguments raises
    TypeError unless the counts agree (no defaults are involved in the
    embedded calls). -/
def callPy (nparams nargs : Nat) (body : PyRun) : PyRun :=
  if nargs = nparams then body else ([], some PyErr.typeError)

/-- Tkinter event dispatch: a callback bound with `widget.bind` is invoked
    with exactly one positional argument (the Event object). -/
def tkDispatch (lambdaParams : Nat) (body : PyRun) : PyRun :=
  callPy lambdaParams 1 body

/-- Body of White_Light_Inteferometer.Start (line 122-123). -/
def Start_body : PyRun := ([GuiEffect.printed "hello"], none)

/-- Body of White_Light_Inteferometer.Stop_Measurement (line 165-166). -/
def Stop_Measurement_body : PyRun := ([GuiEffect.printed "stop"], none)

/-- Body of the lambda bound to the Start button (lines 101-102):
    `self.Start(self.PI_Data, self.Zi_Data)` passes 3 arguments (with the
    bound self) to a method whose signature
    `Start(self, File_List, Dir, PI_Data, Zi_Data)` has 5 parameters. -/
def startLambdaBody : PyRun := callPy 5 3 Start_body

/-- Body of the lambda bound to the Stop button (lines 115-118):
    `self.Stop_Measurement(self.PI_Data, self.Zi_Data)` passes 3 arguments
    to `Stop_Measurement(self,)` with 1 parameter. -/
def stopLambdaBody : PyRun := callPy 1 3 Stop_Measurement_body

/-- Body of the lambda bound to the Save button (lines 109-113):
    4 arguments plus self make 5, against the 4 parameters of
    `Save_Setting(self, Folder, PI_Data, ZI_Data)`. -/
def saveLambdaBody {α β : Type} (PI_Data : Option α) (ZI_Data : Option β)
    (Folder : String) : PyRun :=
  callPy 4 5 (Save_Setting PI_Data ZI_Data Folder)

/-- Body of the lambda bound to the Open button (lines 104-107):
    3 arguments plus self make 4, matching the 4 parameters of
    `Load_Setting(self, Folder, PI_Data, ZI_Data)`. -/
def loadLambdaBody {α β : Type} (PI_Data : Option α) (ZI_Data : Option β)
    (Folder : String) : PyRun :=
  callPy 4 4 (Load_Setting PI_Data ZI_Data Folder)

/-- Effect of pressing the Start button: the bound callback is the
    zero-parameter lambda of line 101-102. -/
def startButtonPress : PyRun := tkDispatch 0 startLambdaBody

/-- Effect of pressing the Stop button (zero-parameter lambda, lines 115-118). -/
def stopButtonPress : PyRun := tkDispatch 0 stopLambdaBody

/-- Effect of pressing the Save button (zero-parameter lambda, lines 109-113). -/
def saveButtonPress {α β : Type} (PI_Data : Option α) (ZI_Data : Option β)
    (Folder : String) : PyRun :=
  tkDispatch 0 (saveLambdaBody PI_Data ZI_Data Folder)

/-- Effect of pressing the Open button (zero-parameter lambda, lines 104-107). -/
def loadButtonPress {α β : Type} (PI_Data : Option α) (ZI_Data : Option β)
    (Folder : String) : PyRun :=
  tkDispatch 0 (loadLambdaBody PI_Data ZI_Data Folder)

/-- Attribute names bound on the application object: the instance
    attributes assigned in White_Light_Inteferometer.__init__ and the
    methods of the class.  The name Frame is not among them, and the
    attribute lookup fallback of tkinter (delegation to the embedded Tcl
    interpreter object) does not provide it either. -/
def appAttrNames : List String :=
  ["PI_Data", "Zi_Data", "ZiFrame", "frame", "PI_Control", "ZI_Control",
   "Start", "Save_Setting", "Load_Setting", "Stop_Measurement"]

/-- Python attribute lookup on the application object. -/
def appHasAttr (name : String) : Bool := name ∈ appAttrNames

/-- Embeds the module-level function Refresh (WhiteLight.py lines 168-179).
    Its first statement reads `app.Frame.connected`; the attribute access
    `app.Frame` is resolved against the application object (the parameter
    of Refresh named Frame is never read).  The parameter `connected`
    models the flag value that `.connected` would yield, and `whichPanel`
    models which connection panel `app.Frame` would compare equal to. -/
def Refresh (connected : Bool) (whichPanel : Nat) : PyRun :=
  if appHasAttr "Frame" then
    if connected = false then ([GuiEffect.afterScheduled 1000], none)
    else if whichPanel = 0 then ([GuiEffect.copiedPIData], none)
    else if whichPanel = 1 then ([GuiEffect.copiedZiData], none)
    else ([], none)
  else ([], some (PyErr.attributeError "Frame"))

/-! ## Embedding of the AWG example polling loops (example_awg.py) -/

/-- Embeds the compilation-status wait loop of example_awg.py lines
    181-182: `while get(compiler/status) == -1: sleep(0.1)`.  The oracle
    `s` gives the value returned by the n-th read of the status node; `i`
    is the index of the next read and `fuel` bounds the number of loop
    iterations that are unrolled.  The result is the index of the read on
    which the loop exits, or none if `fuel` iterations did not suffice. -/
def pollLoop (s : Nat → Int) : Nat → Nat → Option Nat
  | 0, _ => none
  | fuel + 1, i => if s i = -1 then pollLoop s fuel (i + 1) else some i

/-- Outcome of the compilation branch of example_awg.py lines 184-199. -/
inductive CompileOutcome
  | raised (statusstring : String)
  | proceedToUpload (printedSuccess printedWarning : Bool)
  deriving DecidableEq, Repr

/-- Embeds example_awg.py lines 181-193: the status wait loop followed by
    the branch on the compilation status.  Each mention of
    `awgModule.get(compiler/status)` in the source is one further read of
    the status node: after the loop exits on read k, the `if` of line 184
    reads again (k+1), and in the else branch the checks of lines 188 and
    190 read again (k+2 and k+3).  On status 1 the raised exception
    carries the value of the statusstring node; otherwise execution
    proceeds to the waveform-upload wait loop. -/
def compilePhase (s : Nat → Int) (statusstring : String) (fuel : Nat) :
    Option CompileOutcome :=
  match pollLoop s fuel 0 with
  | none => none
  | some k =>
    if s (k + 1) = 1 then some (CompileOutcome.raised statusstring)
    else some (CompileOutcome.proceedToUpload
      (decide (s (k + 2) = 0)) (decide (s (k + 3) = 2)))

/-- Embeds the waveform-upload wait loop of example_awg.py lines 196-199:
    `while get(awgModule/progress) < 1.0: print; sleep(0.5)`.  The oracle
    `p` gives the progress value sampled by the n-th condition check; the
    loop body has no exit and no bound, so the function only returns the
    exit index when some read reaches 1.0 within `fuel` iterations. -/
def uploadWait (p : Nat → ℚ) : Nat → Nat → Option Nat
  | 0, _ => none
  | fuel + 1, i => if p i < 1 then uploadWait p fuel (i + 1) else some i

/-- Embeds the scope-read wait loop of example_awg.py lines 275-278:
    `local_timeout = 2.0; while progress < 1.0 and local_timeout > 0:
    sleep(0.1); local_timeout -= 0.1`.  The oracle `p` gives the progress
    value of the n-th condition check and `t` the current value of
    local_timeout; the result is the number of condition checks performed
    before the loop exits. -/
def scopeWait (p : Nat → ℚ) : Nat → Nat → ℚ → Option Nat
  | 0, _, _ => none
  | fuel + 1, i, t =>
    if p i < 1 ∧ 0 < t then scopeWait p fuel (i + 1) (t - 1 / 10)
    else some i

/-! ## Embedding of the demodulator sample post-processing
    (example_connect_config.py lines 128-134) -/

/-- One demodulator sample as returned by getSample: only the fields read
    by the script are modelled. -/
structure Sample where
  x : ℝ
  y : ℝ

/-- The sample dictionary after run_example added the derived fields. -/
structure SampleRPhi where
  x : ℝ
  y : ℝ
  R : ℝ
  phi : ℝ

/-- Modulus of a complex number, the numpy function np.abs on complex
    arguments. -/
noncomputable def np_abs (z : ℂ) : ℝ := Complex.abs z

/-- Phase of a complex number, the numpy function np.angle. -/
noncomputable def np_angle (z : ℂ) : ℝ := Complex.arg z

/-- Embeds example_connect_config.py lines 131-132:
    `sample[R] = np.abs(sample[x] + 1j*sample[y])` and
    `sample[phi] = np.angle(sample[x] + 1j*sample[y])`. -/
noncomputable def addMagnitudePhase (s : Sample) : SampleRPhi :=
  { x := s.x, y := s.y,
    R := np_abs (s.x + Complex.I * s.y),
    phi := np_angle (s.x + Complex.I * s.y) }

/-- The two-argument arctangent, stated from the specification: the angle
    of the point (x, y), in (-pi, pi], with atan2 0 0 = 0. -/
noncomputable def atan2 (y x : ℝ) : ℝ :=
  if 0 < x then Real.arctan (y / x)
  else if x < 0 ∧ 0 ≤ y then Real.arctan (y / x) + Real.pi
  else if x < 0 then Real.arctan (y / x) - Real.pi
  else if 0 < y then Real.pi / 2
  else if y < 0 then -(Real.pi / 2)
  else 0

/-! ## Embedding of the AWG verification math (example_awg.py lines
    296-330) -/

/-- Elementwise sum of squares, as in `sum(y**2)` on a numpy vector. -/
noncomputable def sumSq (l : List ℝ) : ℝ := (l.map fun t => t ^ 2).sum

/-- The numpy function np.correlate in its default (valid) mode for
    len a >= len v: entry k is the inner product of v with the window of
    a starting at offset k. -/
noncomputable def np_correlate (a v : List ℝ) : List ℝ :=
  (List.range (a.length - v.length + 1)).map fun k =>
    ((List.range v.length).map fun i => a.getD (k + i) 0 * v.getD i 0).sum

/-- Scan for np_argmax: bi and bv are the index and value of the current
    best (first maximal) element, i the index of the next element. -/
noncomputable def argmaxGo : Nat → ℝ → Nat → List ℝ → Nat
  | bi, _, _, [] => bi
  | bi, bv, i, t :: rest =>
    if bv < t then argmaxGo i t (i + 1) rest else argmaxGo bi bv (i + 1) rest

/-- The numpy function np.argmax: index of the first maximal element. -/
noncomputable def np_argmax : List ℝ → Nat
  | [] => 0
  | t :: rest => argmaxGo 0 t 1 rest

/-- Value full_scale of example_awg.py line 296. -/
noncomputable def full_scale : ℝ := 0.75

/-- Value amplitude of example_awg.py line 91. -/
noncomputable def amplitude : ℝ := 1.0

/-- Embeds example_awg.py line 297: the expected signal is the
    concatenation of the four sub-waveforms scaled elementwise by
    full_scale and amplitude. -/
noncomputable def y_expected (w0 w1 w2 w3 : List ℝ) : List ℝ :=
  (w0 ++ w1 ++ w2 ++ w3).map fun t => t * full_scale * amplitude

/-- Embeds example_awg.py lines 301-302 and 327: the correlation peak
    normalized by the energies of the two signals. -/
noncomputable def norm_correlation_coeff (ym ye : List ℝ) : ℝ :=
  (np_correlate ym ye).getD (np_argmax (np_correlate ym ye)) 0 /
    Real.sqrt (sumSq ym * sumSq ye)

/-- Embeds the assertion of example_awg.py line 328:
    `assert norm_correlation_coeff > 0.95`. -/
noncomputable def correlationAssertion (ym ye : List ℝ) : Prop :=
  0.95 < norm_correlation_coeff ym ye

/-! ## Embedding of the sequencer-program placeholder substitution
    (example_awg.py lines 129-158) -/

/-- Python str.replace for a nonempty pattern: replaces every
    non-overlapping occurrence of pat, scanning left to right. -/
def strReplace : List Char → List Char → List Char → List Char
  | [], _, _ => []
  | c :: rest, pat, sub =>
    if pat.isPrefixOf (c :: rest) then
      sub ++ strReplace (rest.drop (pat.length - 1)) pat sub
    else c :: strReplace rest pat sub
termination_by s _ _ => s.length
decreasing_by
  · simp only [List.length_cons, List.length_drop]
    omega
  · simp only [List.length_cons]
    omega

/-- Whether pat occurs as a contiguous subsequence of s. -/
def containsPat : List Char → List Char → Bool
  | [], pat => pat.isEmpty
  | c :: cs, pat => pat.isPrefixOf (c :: cs) || containsPat cs pat

/-- Whether pat matches starting at some position strictly inside pre,
    where the text continues with suffix after pre. -/
def startsWithin : List Char → List Char → List Char → Bool
  | [], _, _ => false
  | c :: cs, pat, suffix =>
    pat.isPrefixOf (c :: (cs ++ suffix)) || startsWithin cs pat suffix

/-- Whether the comparison of pat against the fragment w is guaranteed to
    fail within the overlap of the two lists, whatever text follows w. -/
def windowMismatch : List Char → List Char → Bool
  | _, [] => false
  | [], _ :: _ => false
  | c :: cs, p :: ps => c != p || windowMismatch cs ps

/-- Whether pat is guaranteed not to match at any position inside pre,
    whatever text follows pre. -/
def allWindowsMismatch : List Char → List Char → Bool
  | [], _ => true
  | c :: cs, pat => windowMismatch (c :: cs) pat && allWindowsMismatch cs pat

/-- Python str.join with separator "," : joins the pieces with a comma
    between consecutive pieces. -/
def joinComma : List (List Char) → List Char
  | [] => []
  | [w] => w
  | w :: ws => w ++ ',' :: joinComma ws

/-- Number of points in the AWG waveform, example_awg.py line 113. -/
def AWG_N : Nat := 2000

/-- The AWG sequencer program template of example_awg.py lines 129-142,
    before placeholder substitution. -/
def awg_program_template : String :=
  "\nconst AWG_N = _c1_;\nwave w0 = \"wave0\";\nwave w1 = gauss(AWG_N, AWG_N/2, AWG_N/20);\nwave w2 = vect(_w2_);\nwave w3 = zeros(AWG_N);\nwhile(getUserReg(0) == 0);\nsetTrigger(1);\nsetTrigger(0);\nplayWave(w0);\nplayWave(w1);\nplayWave(w2);\nplayWave(w3);\n"

/-- Template text before the placeholder of the constant. -/
def tmplA : String := "\nconst AWG_N = "

/-- Template text between the two placeholders. -/
def tmplB : String :=
  ";\nwave w0 = \"wave0\";\nwave w1 = gauss(AWG_N, AWG_N/2, AWG_N/20);\nwave w2 = vect("

/-- Template text after the waveform placeholder. -/
def tmplC : String :=
  ");\nwave w3 = zeros(AWG_N);\nwhile(getUserReg(0) == 0);\nsetTrigger(1);\nsetTrigger(0);\nplayWave(w0);\nplayWave(w1);\nplayWave(w2);\nplayWave(w3);\n"

/-- Embeds example_awg.py lines 156-158: the program after
    `awg_program.replace(_w2_, join).replace(_c1_, str(AWG_N))`, where
    w2txt stands for the comma-joined decimal representation of
    waveform_2 (the text inserted for the waveform placeholder). -/
def substitutedProgram (w2txt : List Char) : List Char :=
  strReplace (strReplace awg_program_template.data "_w2_".data w2txt)
    "_c1_".data (toString AWG_N).data

/-! ## Embedding of the vendor-API call traces (both example scripts) -/

/-- One call of an example script into the vendor API. -/
inductive ApiCall
  | createSession
  | versionCheck
  | setBatch (pairs : List (String × ℚ))
  | sync
  | sleepFor (d : ℚ)
  | getSample (path : String)
  | setInt (path : String) (v : Int)
  | setDouble (path : String) (v : ℚ)
  | vectorWrite (path : String)
  | moduleOp (op : String)
  | subscribe (path : String)
  | executeModule
  | progressPoll
  | printMsg
  | fileWrite
  | scopeRead
  deriving DecidableEq, Repr

/-- Whether a call writes device configuration nodes. -/
def isConfigWrite : ApiCall → Bool
  | ApiCall.setBatch _ => true
  | ApiCall.setInt _ _ => true
  | ApiCall.setDouble _ _ => true
  | ApiCall.vectorWrite _ => true
  | _ => false

/-- The reads that depend on prior configuration writes: getSample in the
    demodulator example and the vectorWrite to the waveform slot in the
    AWG example. -/
def isDependentRead : ApiCall → Bool
  | ApiCall.getSample _ => true
  | ApiCall.vectorWrite _ => true
  | _ => false

/-- State update of the synchronization checker: a configuration write
    marks the device-server pair dirty, a sync barrier clears it. -/
def nextDirty (dirty : Bool) (c : ApiCall) : Bool :=
  match c with
  | ApiCall.sync => false
  | _ => dirty || isConfigWrite c

/-- Scans a call trace and checks that no dependent read is issued while a
    configuration write has not yet been followed by a sync barrier. -/
def depReadsSynced : Bool → List ApiCall → Bool
  | _, [] => true
  | dirty, c :: rest =>
    (!isDependentRead c || !dirty) && depReadsSynced (nextDirty dirty c) rest

/-- The base configuration of both scripts (lines 68-74 of example_awg.py,
    lines 71-77 of example_connect_config.py): hasIA tells whether the IA
    option entry is appended. -/
def general_setting (device : String) (hasIA : Bool) : List (String × ℚ) :=
  [("/" ++ device ++ "/demods/*/enable", 0),
   ("/" ++ device ++ "/demods/*/trigger", 0),
   ("/" ++ device ++ "/sigouts/*/enables/*", 0),
   ("/" ++ device ++ "/scopes/*/enable", 0)] ++
  (if hasIA then [("/" ++ device ++ "/imps/*/enable", 0)] else [])

/-- The experiment configuration of example_connect_config.py lines
    94-113, with mixer the default output mixer channel and amp the
    amplitude argument; isHF2 tells whether the two HF2 entries are
    appended. -/
def exp_setting_connect (device : String) (mixer : Nat) (amp : ℚ)
    (isHF2 : Bool) : List (String × ℚ) :=
  [("/" ++ device ++ "/sigins/0/ac", 0),
   ("/" ++ device ++ "/sigins/0/range", 2 * amp),
   ("/" ++ device ++ "/demods/0/enable", 1),
   ("/" ++ device ++ "/demods/0/rate", 10000),
   ("/" ++ device ++ "/demods/0/adcselect", 0),
   ("/" ++ device ++ "/demods/0/order", 4),
   ("/" ++ device ++ "/demods/0/timeconstant", 1 / 1000000),
   ("/" ++ device ++ "/demods/0/oscselect", 0),
   ("/" ++ device ++ "/demods/0/harmonic", 1),
   ("/" ++ device ++ "/oscs/0/freq", 400000),
   ("/" ++ device ++ "/sigouts/0/on", 1),
   ("/" ++ device ++ "/sigouts/0/enables/" ++ toString mixer, 1),
   ("/" ++ device ++ "/sigouts/0/range", 1),
   ("/" ++ device ++ "/sigouts/0/amplitudes/" ++ toString mixer, amp)] ++
  (if isHF2 then
    [("/" ++ device ++ "/sigins/0/diff", 0),
     ("/" ++ device ++ "/sigouts/0/add", 0)]
   else [])

/-- The full vendor-API call trace of example_connect_config.run_example
    (lines 65-134). -/
def connectTrace (device : String) (hasIA isHF2 : Bool) (mixer : Nat)
    (amp : ℚ) : List ApiCall :=
  [ApiCall.createSession, ApiCall.versionCheck,
   ApiCall.setBatch (general_setting device hasIA), ApiCall.sync,
   ApiCall.setBatch (exp_setting_connect device mixer amp isHF2),
   ApiCall.sleepFor (10 * (1 / 1000000)), ApiCall.sync,
   ApiCall.getSample ("/" ++ device ++ "/demods/0/sample")]

/-- The experiment configuration of example_awg.py lines 93-107. -/
def exp_setting_awg (device : String) : List (String × ℚ) :=
  [("/" ++ device ++ "/sigins/0/imp50", 1),
   ("/" ++ device ++ "/sigins/0/ac", 0),
   ("/" ++ device ++ "/sigins/0/diff", 0),
   ("/" ++ device ++ "/sigins/0/range", 1),
   ("/" ++ device ++ "/oscs/0/freq", 1000000),
   ("/" ++ device ++ "/sigouts/0/on", 1),
   ("/" ++ device ++ "/sigouts/0/range", 1),
   ("/" ++ device ++ "/sigouts/0/enables/3", 1),
   ("/" ++ device ++ "/sigouts/0/amplitudes/*", 0),
   ("/" ++ device ++ "/awgs/0/outputs/0/amplitude", 1),
   ("/" ++ device ++ "/awgs/0/outputs/0/mode", 0),
   ("/" ++ device ++ "/awgs/0/time", 0),
   ("/" ++ device ++ "/awgs/0/userregs/0", 0)]

/-- The scope configuration writes of example_awg.py lines 218-252. -/
def awgScopeConfig (device : String) : List ApiCall :=
  [ApiCall.setInt ("/" ++ device ++ "/scopes/0/channels/0/inputselect") 0,
   ApiCall.setInt ("/" ++ device ++ "/scopes/0/time") 0,
   ApiCall.setInt ("/" ++ device ++ "/scopes/0/trigenable") 1,
   ApiCall.setInt ("/" ++ device ++ "/scopes/0/enable") 0,
   ApiCall.setInt ("/" ++ device ++ "/scopes/0/length") 16836,
   ApiCall.setInt ("/" ++ device ++ "/scopes/0/trigenable") 1,
   ApiCall.setInt ("/" ++ device ++ "/scopes/0/trigchannel") 192,
   ApiCall.setInt ("/" ++ device ++ "/scopes/0/trigslope") 1,
   ApiCall.setDouble ("/" ++ device ++ "/scopes/0/trighysteresis/mode") 0,
   ApiCall.setDouble ("/" ++ device ++ "/scopes/0/trighysteresis/relative")
     (1 / 40),
   ApiCall.setDouble ("/" ++ device ++ "/scopes/0/trigdelay") 0,
   ApiCall.setDouble ("/" ++ device ++ "/scopes/0/trigholdoff") (1 / 40)]

/-- The full vendor-API call trace of example_awg.run_example (lines
    63-283): waveDirOk tells whether the wave-directory check of line 169
    passes (else the script raises), kPoll is the number of in-progress
    compiler polls, failed tells whether compilation reported failure
    (the script raises after reading the statusstring), nUpload and
    nScope are the iteration counts of the two progress-wait loops. -/
def awgTrace (device : String) (hasIA waveDirOk failed : Bool)
    (kPoll nUpload nScope : Nat) : List ApiCall :=
  [ApiCall.createSession, ApiCall.versionCheck,
   ApiCall.setBatch (general_setting device hasIA), ApiCall.sync,
   ApiCall.setBatch (exp_setting_awg device), ApiCall.sync,
   ApiCall.moduleOp "awgModule set device", ApiCall.executeModule,
   ApiCall.moduleOp "awgModule getString directory"] ++
  (if waveDirOk = false then [] else
    [ApiCall.fileWrite,
     ApiCall.moduleOp "awgModule set compiler sourcestring"] ++
    List.replicate (kPoll + 1) (ApiCall.moduleOp "compiler status get") ++
    [ApiCall.moduleOp "compiler status get"] ++
    (if failed then [ApiCall.moduleOp "compiler statusstring get"] else
      [ApiCall.moduleOp "compiler status get", ApiCall.printMsg,
       ApiCall.moduleOp "compiler status get"] ++
      List.replicate nUpload ApiCall.progressPoll ++
      [ApiCall.setInt ("/" ++ device ++ "/awgs/0/waveform/index") 2,
       ApiCall.sync,
       ApiCall.vectorWrite ("/" ++ device ++ "/awgs/0/waveform/data")] ++
      awgScopeConfig device ++
      [ApiCall.moduleOp "scopeModule set mode",
       ApiCall.subscribe ("/" ++ device ++ "/scopes/0/wave"),
       ApiCall.setInt ("/" ++ device ++ "/scopes/0/single") 1,
       ApiCall.executeModule,
       ApiCall.setBatch [("/" ++ device ++ "/awgs/0/single", 1),
                         ("/" ++ device ++ "/awgs/0/enable", 1)],
       ApiCall.sync,
       ApiCall.setInt ("/" ++ device ++ "/scopes/0/enable") 1,
       ApiCall.sync, ApiCall.sleepFor 1,
       ApiCall.setDouble ("/" ++ device ++ "/awgs/0/userregs/0") 1] ++
      List.replicate nScope ApiCall.progressPoll ++
      [ApiCall.setInt ("/" ++ device ++ "/scopes/0/enable") 0,
       ApiCall.scopeRead]))

/-- The tail of the AWG example around the scope read (lines 274-283):
    the wait-loop polls followed by disabling the scope and the call of
    scopeModule.read, available once the wait loop has terminated. -/
def scopeReadPhase (p : Nat → ℚ) (device : String) (fuel : Nat) :
    Option (List ApiCall) :=
  (scopeWait p fuel 0 2).map fun k =>
    List.replicate k ApiCall.progressPoll ++
    [ApiCall.setInt ("/" ++ device ++ "/scopes/0/enable") 0,
     ApiCall.scopeRead]

/-! ## Helper lemmas -/

lemma pollLoop_exit (s : Nat → Int) (k : Nat) (hk : s k ≠ -1)
    (hbefore : ∀ i, i < k → s i = -1) :
    ∀ fuel i, i ≤ k → k - i < fuel → pollLoop s fuel i = some k := by
  intro fuel
  induction fuel with
  | zero => intro i _ hf; omega
  | succ n ih =>
    intro i hi hf
    by_cases h : i = k
    · subst h
      simp [pollLoop, hk]
    · have hik : i < k := lt_of_le_of_ne hi h
      have hsi : s i = -1 := hbefore i hik
      simp only [pollLoop, hsi, if_pos rfl]
      exact ih (i + 1) hik (by omega)

lemma scopeWait_exhausts (p : Nat → ℚ) (h : ∀ i, p i < 1) :
    ∀ n fuel i : Nat, n < fuel → scopeWait p fuel i ((n : ℚ) / 10) = some (i + n) := by
  intro n
  induction n with
  | zero =>
    intro fuel i hf
    match fuel, hf with
    | fuel + 1, _ =>
      simp [scopeWait]
  | succ n ih =>
    intro fuel i hf
    match fuel, hf with
    | fuel + 1, hf =>
      have hpos : (0 : ℚ) < ((n : ℚ) + 1) / 10 := by positivity
      have harith : ((n : ℚ) + 1) / 10 - 1 / 10 = (n : ℚ) / 10 := by ring
      simp only [scopeWait, Nat.cast_succ, hpos, h i, and_self, if_pos, harith]
      rw [ih fuel (i + 1) (by omega)]
      congr 1
      omega

lemma scopeWait_bounded (p : Nat → ℚ) :
    ∀ n fuel i : Nat, ∀ t : ℚ, t ≤ (n : ℚ) / 10 → n < fuel →
      ∃ k, k ≤ i + n ∧ scopeWait p fuel i t = some k := by
  intro n
  induction n with
  | zero =>
    intro fuel i t ht hf
    match fuel, hf with
    | fuel + 1, _ =>
      have : ¬ (p i < 1 ∧ 0 < t) := by
        rintro ⟨-, h0⟩
        simp only [Nat.cast_zero, zero_div] at ht
        linarith
      exact ⟨i, by omega, by simp [scopeWait, this]⟩
  | succ n ih =>
    intro fuel i t ht hf
    match fuel, hf with
    | fuel + 1, hf =>
      by_cases hc : p i < 1 ∧ 0 < t
      · have ht2 : t - 1 / 10 ≤ (n : ℚ) / 10 := by
          push_cast at ht ⊢
          linarith
        obtain ⟨k, hk, heq⟩ := ih fuel (i + 1) (t - 1 / 10) ht2 (by omega)
        refine ⟨k, by omega, ?_⟩
        simp only [scopeWait]
        rw [if_pos hc]
        exact heq
      · exact ⟨i, by omega, by simp [scopeWait, hc]⟩

lemma uploadWait_stuck (p : Nat → ℚ) (h : ∀ i, p i < 1) :
    ∀ fuel i, uploadWait p fuel i = none := by
  intro fuel
  induction fuel with
  | zero => intro i; rfl
  | succ n ih =>
    intro i
    simp [uploadWait, h i, ih]

lemma xiy_re (x y : ℝ) : ((x : ℂ) + Complex.I * y).re = x := by simp

lemma xiy_im (x y : ℝ) : ((x : ℂ) + Complex.I * y).im = y := by simp

lemma arg_eq_arctan_of_re_pos (z : ℂ) (hz : 0 < z.re) :
    Complex.arg z = Real.arctan (z.im / z.re) := by
  have habs := Complex.abs_arg_lt_pi_div_two_iff.mpr (Or.inl hz)
  obtain ⟨h1, h2⟩ := abs_lt.mp habs
  rw [← Complex.tan_arg z]
  exact (Real.arctan_tan h1 h2).symm

lemma np_angle_eq_atan2 (x y : ℝ) :
    Complex.arg ((x : ℂ) + Complex.I * y) = atan2 y x := by
  have hre : ((x : ℂ) + Complex.I * y).re = x := xiy_re x y
  have him : ((x : ℂ) + Complex.I * y).im = y := xiy_im x y
  set z : ℂ := (x : ℂ) + Complex.I * y with hzdef
  rcases lt_trichotomy 0 x with hx | hx | hx
  · rw [arg_eq_arctan_of_re_pos z (by rwa [hre]), hre, him, atan2, if_pos hx]
  · have hx0 : x = 0 := hx.symm
    rcases lt_trichotomy 0 y with hy | hy | hy
    · have harg : Complex.arg z = Real.pi / 2 :=
        Complex.arg_eq_pi_div_two_iff.mpr ⟨by rw [hre, hx0], by rwa [him]⟩
      rw [harg]
      simp [atan2, hx0, hy, lt_irrefl]
    · have hy0 : y = 0 := hy.symm
      have hz0 : z = 0 := by
        rw [Complex.ext_iff]
        simp [hre, him, hx0, hy0]
      rw [hz0, Complex.arg_zero]
      simp [atan2, hx0, hy0, lt_irrefl]
    · have harg : Complex.arg z = -(Real.pi / 2) :=
        Complex.arg_eq_neg_pi_div_two_iff.mpr ⟨by rw [hre, hx0], by rwa [him]⟩
      rw [harg]
      simp [atan2, hx0, lt_irrefl, lt_asymm hy, hy]
  · rcases lt_trichotomy 0 y with hy | hy | hy
    · have him_pos : 0 < z.im := by rwa [him]
      have hneg := Complex.arg_neg_eq_arg_sub_pi_of_im_pos him_pos
      have hre_neg : 0 < (-z).re := by
        simp only [Complex.neg_re, hre]
        linarith
      have harg_neg : Complex.arg (-z) = Real.arctan (y / x) := by
        rw [arg_eq_arctan_of_re_pos _ hre_neg]
        simp only [Complex.neg_im, Complex.neg_re, hre, him, neg_div_neg_eq]
      have harg : Complex.arg z = Real.arctan (y / x) + Real.pi := by
        rw [← harg_neg, hneg]
        ring
      rw [harg, atan2, if_neg (by linarith), if_pos ⟨hx, le_of_lt hy⟩]
    · have hy0 : y = 0 := hy.symm
      have hz_real : z = (x : ℂ) := by
        rw [Complex.ext_iff]
        simp [hre, him, hy0]
      rw [hz_real, Complex.arg_ofReal_of_neg hx]
      rw [atan2, if_neg (by linarith), if_pos ⟨hx, by rw [hy0]⟩, hy0]
      simp
    · have him_neg : z.im < 0 := by rwa [him]
      have hneg := Complex.arg_neg_eq_arg_add_pi_of_im_neg him_neg
      have hre_neg : 0 < (-z).re := by
        simp only [Complex.neg_re, hre]
        linarith
      have harg_neg : Complex.arg (-z) = Real.arctan (y / x) := by
        rw [arg_eq_arctan_of_re_pos _ hre_neg]
        simp only [Complex.neg_im, Complex.neg_re, hre, him, neg_div_neg_eq]
      have harg : Complex.arg z = Real.arctan (y / x) - Real.pi := by
        rw [← harg_neg, hneg]
        ring
      rw [harg, atan2, if_neg (by linarith),
        if_neg (by rintro ⟨-, h0⟩; linarith), if_pos hx]

lemma np_abs_eq_sqrt (x y : ℝ) :
    Complex.abs ((x : ℂ) + Complex.I * y) = Real.sqrt (x ^ 2 + y ^ 2) := by
  rw [Complex.abs_apply, Complex.normSq_apply, xiy_re, xiy_im]
  congr 1
  ring

lemma sumSq_cons (a : ℝ) (l : List ℝ) : sumSq (a :: l) = a ^ 2 + sumSq l := by
  simp [sumSq]

lemma sumSq_nonneg (l : List ℝ) : 0 ≤ sumSq l := by
  induction l with
  | nil => simp [sumSq]
  | cons a l ih =>
    rw [sumSq_cons]
    have := sq_nonneg a
    linarith

lemma sumSq_pos (l : List ℝ) (h : ∃ t ∈ l, t ≠ 0) : 0 < sumSq l := by
  induction l with
  | nil =>
    rcases h with ⟨t, ht, _⟩
    simp at ht
  | cons a l ih =>
    rw [sumSq_cons]
    rcases h with ⟨t, ht, hne⟩
    rcases List.mem_cons.mp ht with rfl | hmem
    · have h1 : 0 < t ^ 2 := by positivity
      have h2 := sumSq_nonneg l
      linarith
    · have h1 := ih ⟨t, hmem, hne⟩
      have h2 := sq_nonneg a
      linarith

lemma dotRange_self (l : List ℝ) :
    ((List.range l.length).map fun i => l.getD i 0 * l.getD i 0).sum = sumSq l := by
  induction l with
  | nil => simp [sumSq]
  | cons a l ih =>
    rw [List.length_cons, List.range_succ_eq_map, List.map_cons, List.map_map]
    simp only [Function.comp_def, List.getD_cons_succ, List.getD_cons_zero,
      List.sum_cons]
    rw [ih, sumSq_cons]
    ring

lemma correlate_eq_of_len (ym ye : List ℝ) (hlen : ym.length = ye.length) :
    np_correlate ym ye =
      [((List.range ye.length).map fun i => ym.getD i 0 * ye.getD i 0).sum] := by
  simp [np_correlate, hlen, Nat.sub_self, List.range_succ]

lemma argmax_singleton (t : ℝ) : np_argmax [t] = 0 := by
  simp [np_argmax, argmaxGo]

lemma y_expected_ne_zero_mem {w0 w1 w2 w3 : List ℝ}
    (h : ∃ t ∈ w0 ++ w1 ++ w2 ++ w3, t ≠ 0) :
    ∃ t ∈ y_expected w0 w1 w2 w3, t ≠ 0 := by
  rcases h with ⟨t, ht, hne⟩
  refine ⟨t * full_scale * amplitude, List.mem_map.mpr ⟨t, ht, rfl⟩, ?_⟩
  rw [mul_assoc]
  exact mul_ne_zero hne (by norm_num [full_scale, amplitude])

lemma windowMismatch_no_match (w : List Char) :
    ∀ pat, windowMismatch w pat = true →
      ∀ suffix, pat.isPrefixOf (w ++ suffix) = false := by
  induction w with
  | nil =>
    intro pat h suffix
    cases pat with
    | nil => simp [windowMismatch] at h
    | cons p ps => simp [windowMismatch] at h
  | cons c cs ih =>
    intro pat h suffix
    cases pat with
    | nil => simp [windowMismatch] at h
    | cons p ps =>
      simp only [windowMismatch, Bool.or_eq_true, bne_iff_ne, ne_eq] at h
      simp only [List.cons_append, List.isPrefixOf, Bool.and_eq_false_iff]
      rcases h with h | h
      · left
        simp only [beq_eq_false_iff_ne, ne_eq]
        intro hpc
        exact h hpc.symm
      · right
        exact ih ps h suffix

lemma allWindowsMismatch_startsWithin (pre pat suffix : List Char)
    (h : allWindowsMismatch pre pat = true) :
    startsWithin pre pat suffix = false := by
  induction pre with
  | nil => rfl
  | cons c cs ih =>
    simp only [allWindowsMismatch, Bool.and_eq_true] at h
    have h1 := windowMismatch_no_match (c :: cs) pat h.1 suffix
    simp only [List.cons_append] at h1
    simp only [startsWithin, Bool.or_eq_false_iff]
    exact ⟨h1, ih h.2⟩

lemma containsPat_append (pre suffix pat : List Char) :
    containsPat (pre ++ suffix) pat =
      (startsWithin pre pat suffix || containsPat suffix pat) := by
  induction pre with
  | nil => simp [startsWithin]
  | cons c cs ih =>
    simp [containsPat, startsWithin, ih, Bool.or_assoc]

lemma strReplace_no_occurrence (pat sub : List Char) :
    ∀ s, containsPat s pat = false → strReplace s pat sub = s := by
  intro s
  induction s with
  | nil => intro _; simp [strReplace]
  | cons c cs ih =>
    intro h
    simp only [containsPat, Bool.or_eq_false_iff] at h
    rw [strReplace, if_neg (by simp [h.1]), ih h.2]

lemma strReplace_split (pat sub : List Char) (hne : pat ≠ []) :
    ∀ pre rest, startsWithin pre pat (pat ++ rest) = false →
      strReplace (pre ++ pat ++ rest) pat sub =
        pre ++ sub ++ strReplace rest pat sub := by
  intro pre
  induction pre with
  | nil =>
    intro rest _
    cases pat with
    | nil => exact absurd rfl hne
    | cons p pt =>
      simp only [List.nil_append, List.cons_append]
      rw [strReplace, if_pos]
      · have hdrop : (pt ++ rest).drop ((p :: pt).length - 1) = rest := by
          simp [List.drop_left]
        rw [hdrop]
      · have : (p :: pt).isPrefixOf ((p :: pt) ++ rest) = true := by
          rw [List.isPrefixOf_iff_prefix]
          exact List.prefix_append _ _
        simpa using this
  | cons c cs ih =>
    intro rest h
    simp only [startsWithin, Bool.or_eq_false_iff] at h
    have h1 := h.1
    simp only [List.append_assoc] at h1
    rw [List.cons_append, List.cons_append, strReplace,
      if_neg (by simp only [List.append_assoc]; simp [h1]), ih rest h.2]
    simp

lemma startsWithin_head_notin (p : Char) (pt suffix : List Char) :
    ∀ sub, (∀ c ∈ sub, c ≠ p) →
      startsWithin sub (p :: pt) suffix = false := by
  intro sub
  induction sub with
  | nil => intro _; rfl
  | cons c cs ih =>
    intro h
    simp only [startsWithin, Bool.or_eq_false_iff]
    constructor
    · simp only [List.isPrefixOf, Bool.and_eq_false_iff]
      left
      simp only [beq_eq_false_iff_ne, ne_eq]
      intro hpc
      exact h c (List.mem_cons_self c cs) hpc.symm
    · exact ih fun d hd => h d (List.mem_cons_of_mem c hd)

lemma joinComma_mem (c : Char) :
    ∀ ws : List (List Char), c ∈ joinComma ws →
      c = ',' ∨ ∃ w ∈ ws, c ∈ w := by
  intro ws
  induction ws with
  | nil => intro h; simp [joinComma] at h
  | cons w ws ih =>
    intro h
    cases ws with
    | nil =>
      right
      exact ⟨w, by simp, by simpa [joinComma] using h⟩
    | cons w2 ws2 =>
      have hjc : joinComma (w :: w2 :: ws2) = w ++ ',' :: joinComma (w2 :: ws2) := rfl
      rw [hjc] at h
      rcases List.mem_append.mp h with hw | hw
      · exact Or.inr ⟨w, by simp, hw⟩
      · rcases List.mem_cons.mp hw with rfl | hw2
        · exact Or.inl rfl
        · rcases ih hw2 with h1 | ⟨v, hv, hcv⟩
          · exact Or.inl h1
          · exact Or.inr ⟨v, List.mem_cons_of_mem w hv, hcv⟩

/-! ## Claim theorems -/

/-- Claim C1 (status: code_bug).  The claimed guard behaviour does not
    hold: on every invocation of Save_Setting or Load_Setting, whatever
    the device handles and the chosen directory, the embedded code raises
    a NameError (unbound messabox in the warning branch, unbound Dir in
    the elif condition) before showing any dialog or touching any file;
    in particular, with both devices connected and a non-empty directory
    the settings file is never written or read. -/
theorem c1_save_load_guard {α β : Type} (pi : Option α) (zi : Option β)
    (folder : String) (a : α) (b : β) :
    (Save_Setting pi zi folder = ([], some (PyErr.nameError "messabox")) ∨
      Save_Setting pi zi folder = ([], some (PyErr.nameError "Dir"))) ∧
    (Load_Setting pi zi folder = ([], some (PyErr.nameError "messabox")) ∨
      Load_Setting pi zi folder = ([], some (PyErr.nameError "Dir"))) ∧
    Save_Setting (some a) (some b) "C:/data" =
      ([], some (PyErr.nameError "messabox")) ∧
    Load_Setting (some a) (some b) "C:/data" =
      ([], some (PyErr.nameError "messabox")) := by
  refine ⟨?_, ?_, by simp [Save_Setting, pyTruthy], by simp [Load_Setting, pyTruthy]⟩
  · unfold Save_Setting
    split <;> simp
  · unfold Load_Setting
    split <;> simp

/-- Claim C8 (status: code_bug).  Refresh does not poll and re-schedule as
    claimed: its first statement reads the attribute Frame of the
    application object, which does not exist (the parameter Frame is
    never consulted), so every invocation raises AttributeError and
    neither schedules a re-invocation nor copies device data. -/
theorem c8_refresh_always_raises (connected : Bool) (whichPanel : Nat) :
    Refresh connected whichPanel = ([], some (PyErr.attributeError "Frame")) ∧
    appHasAttr "Frame" = false := by
  have h : appHasAttr "Frame" = false := by decide
  exact ⟨by simp [Refresh, h], h⟩

/-- Claim C9 (status: confirmed).  Every button-press invocation of the
    four File_Dialog handlers raises before completing its action: the
    four bindings are zero-parameter lambdas called with one event
    argument (TypeError at dispatch); the inner Start and Stop_Measurement
    calls are arity-mismatched; Save_Setting and Load_Setting always raise
    NameError on the unbound names messabox and Dir.  No save, load,
    start or stop completes and no dialog is displayed. -/
theorem c9_all_handlers_raise {α β : Type} (pi : Option α) (zi : Option β)
    (folder : String) :
    startButtonPress = ([], some PyErr.typeError) ∧
    stopButtonPress = ([], some PyErr.typeError) ∧
    saveButtonPress pi zi folder = ([], some PyErr.typeError) ∧
    loadButtonPress pi zi folder = ([], some PyErr.typeError) ∧
    startLambdaBody = ([], some PyErr.typeError) ∧
    stopLambdaBody = ([], some PyErr.typeError) ∧
    (Save_Setting pi zi folder = ([], some (PyErr.nameError "messabox")) ∨
      Save_Setting pi zi folder = ([], some (PyErr.nameError "Dir"))) ∧
    (Load_Setting pi zi folder = ([], some (PyErr.nameError "messabox")) ∨
      Load_Setting pi zi folder = ([], some (PyErr.nameError "Dir"))) := by
  refine ⟨by decide, by decide, ?_, ?_, by decide, by decide, ?_, ?_⟩
  · simp [saveButtonPress, tkDispatch, callPy]
  · simp [loadButtonPress, tkDispatch, callPy]
  · unfold Save_Setting
    split <;> simp
  · unfold Load_Setting
    split <;> simp

/-- Claim C3, counterexample.  With the status-node read sequence
    1, 0, 0, ... the wait loop terminates on its very first read, whose
    value 1 is the first value other than -1; yet no exception is raised:
    the branch of line 184 re-reads the node, obtains 0, and execution
    proceeds to the upload phase. -/
theorem c3_counterexample :
    pollLoop (fun i => if i = 0 then 1 else 0) 5 0 = some 0 ∧
    (fun i : Nat => if i = 0 then (1 : Int) else 0) 0 = 1 ∧
    compilePhase (fun i => if i = 0 then 1 else 0) "status text" 5 =
      some (CompileOutcome.proceedToUpload true false) := by
  refine ⟨by decide, by decide, by decide⟩

/-- Claim C3, amended (status: corrected).  For every status read
    sequence, the wait loop terminates exactly on the first value other
    than -1; and provided the status node keeps returning that same value
    on the re-reads performed after the loop (the branch re-reads the
    node rather than reusing the terminating value), a final status of 1
    raises an exception carrying the statusstring of the compiler, while
    0 or 2 proceeds to the waveform-upload phase. -/
theorem c3_compile_branch (s : Nat → Int) (statusstring : String)
    (k fuel : Nat) (hk : s k ≠ -1) (hbefore : ∀ i, i < k → s i = -1)
    (hstab : ∀ i j, i ≤ j → s i ≠ -1 → s j = s i) (hfuel : k < fuel) :
    pollLoop s fuel 0 = some k ∧
    (s k = 1 → compilePhase s statusstring fuel =
      some (CompileOutcome.raised statusstring)) ∧
    (s k = 0 → compilePhase s statusstring fuel =
      some (CompileOutcome.proceedToUpload true false)) ∧
    (s k = 2 → compilePhase s statusstring fuel =
      some (CompileOutcome.proceedToUpload false true)) := by
  have hpoll : pollLoop s fuel 0 = some k :=
    pollLoop_exit s k hk hbefore fuel 0 (Nat.zero_le k) (by omega)
  have h1 : s (k + 1) = s k := hstab k (k + 1) (by omega) hk
  have h2 : s (k + 2) = s k := hstab k (k + 2) (by omega) hk
  have h3 : s (k + 3) = s k := hstab k (k + 3) (by omega) hk
  refine ⟨hpoll, ?_, ?_, ?_⟩ <;> intro hs <;>
    simp [compilePhase, hpoll, h1, h2, h3, hs]

/-- Witness for c3_compile_branch at the constant status sequence 1. -/
theorem c3_compile_branch_witness :
    compilePhase (fun _ => (1 : Int)) "compile failed" 1 =
      some (CompileOutcome.raised "compile failed") :=
  (c3_compile_branch (fun _ => 1) "compile failed" 0 1 (by decide)
    (fun i hi => absurd hi (Nat.not_lt_zero i))
    (fun _ _ _ _ => rfl) (by omega)).2.1 rfl

/-- Claim C5 (status: confirmed).  If the scope-module progress never
    reaches 1.0, the scope wait loop exits after exactly 20 iterations
    (the hand-rolled 2.0 budget decremented by 0.1), the subsequent trace
    disables the scope and still invokes scopeModule.read; and for every
    progress sequence whatsoever the loop performs at most 20 iterations. -/
theorem c5_scope_read_timeout (p : Nat → ℚ) (device : String)
    (h : ∀ i, p i < 1) :
    scopeWait p 21 0 2 = some 20 ∧
    scopeReadPhase p device 21 =
      some (List.replicate 20 ApiCall.progressPoll ++
        [ApiCall.setInt ("/" ++ device ++ "/scopes/0/enable") 0,
         ApiCall.scopeRead]) ∧
    (∀ q : Nat → ℚ, ∃ k, k ≤ 20 ∧ scopeWait q 21 0 2 = some k) := by
  have h20 : scopeWait p 21 0 2 = some 20 := by
    have := scopeWait_exhausts p h 20 21 0 (by omega)
    norm_num at this
    simpa using this
  refine ⟨h20, ?_, ?_⟩
  · simp [scopeReadPhase, h20]
  · intro q
    have := scopeWait_bounded q 20 21 0 2 (by norm_num) (by omega)
    simpa using this

/-- Witness for c5_scope_read_timeout at the constant progress 0. -/
theorem c5_scope_read_timeout_witness :
    scopeWait (fun _ => (0 : ℚ)) 21 0 2 = some 20 :=
  (c5_scope_read_timeout (fun _ => 0) "dev2006" (fun _ => by norm_num)).1

/-- Claim C10 (status: confirmed).  The waveform-upload wait loop has no
    iteration bound: whenever the reported progress stays below 1.0
    forever, no amount of unrolling makes the loop exit, so run_example
    never reaches the code after it; the scope-read loop, by contrast,
    always exits within 20 iterations of its decrementing budget. -/
theorem c10_upload_wait_never_terminates (p : Nat → ℚ)
    (h : ∀ i, p i < 1) :
    (∀ fuel i, uploadWait p fuel i = none) ∧
    (∃ k, k ≤ 20 ∧ scopeWait p 21 0 2 = some k) := by
  refine ⟨uploadWait_stuck p h, ?_⟩
  have := scopeWait_bounded p 20 21 0 2 (by norm_num) (by omega)
  simpa using this

/-- Witness for c10_upload_wait_never_terminates at the constant
    progress 0. -/
theorem c10_upload_wait_witness :
    uploadWait (fun _ => (0 : ℚ)) 1000 0 = none :=
  (c10_upload_wait_never_terminates (fun _ => 0) (fun _ => by norm_num)).1 1000 0

/-- Claim C2 (status: confirmed).  For every demodulator sample with
    fields x and y, run_example adds a field R equal to the Euclidean norm
    of (x, y) and a field phi equal to the two-argument arctangent of
    (y, x), and returns the extended sample. -/
theorem c2_demod_magnitude_phase (s : Sample) :
    (addMagnitudePhase s).R = Real.sqrt (s.x ^ 2 + s.y ^ 2) ∧
    (addMagnitudePhase s).phi = atan2 s.y s.x := by
  constructor
  · simpa [addMagnitudePhase, np_abs] using np_abs_eq_sqrt s.x s.y
  · simpa [addMagnitudePhase, np_angle] using np_angle_eq_atan2 s.x s.y

/-- Claim C4 (status: confirmed).  With a measured waveform identical to
    the expected concatenation of the four sub-waveforms scaled by
    full_scale and amplitude, and nonzero, the normalized correlation
    coefficient equals 1.0 exactly and the 0.95 assertion passes; for a
    measured waveform of the same length orthogonal to the expected one,
    the coefficient is 0 and the assertion fails. -/
theorem c4_awg_correlation :
    (∀ w0 w1 w2 w3 : List ℝ, (∃ t ∈ w0 ++ w1 ++ w2 ++ w3, t ≠ 0) →
      norm_correlation_coeff (y_expected w0 w1 w2 w3)
          (y_expected w0 w1 w2 w3) = 1 ∧
      correlationAssertion (y_expected w0 w1 w2 w3)
        (y_expected w0 w1 w2 w3)) ∧
    (∀ ym ye : List ℝ, ym.length = ye.length →
      ((List.range ye.length).map fun i => ym.getD i 0 * ye.getD i 0).sum = 0 →
      norm_correlation_coeff ym ye = 0 ∧ ¬ correlationAssertion ym ye) := by
  constructor
  · intro w0 w1 w2 w3 h
    have hpos : 0 < sumSq (y_expected w0 w1 w2 w3) :=
      sumSq_pos _ (y_expected_ne_zero_mem h)
    have hcorr : np_correlate (y_expected w0 w1 w2 w3)
        (y_expected w0 w1 w2 w3) = [sumSq (y_expected w0 w1 w2 w3)] := by
      rw [correlate_eq_of_len _ _ rfl, dotRange_self]
    have hcoeff : norm_correlation_coeff (y_expected w0 w1 w2 w3)
        (y_expected w0 w1 w2 w3) = 1 := by
      rw [norm_correlation_coeff, hcorr, argmax_singleton]
      rw [List.getD_cons_zero, Real.sqrt_mul_self (le_of_lt hpos)]
      exact div_self (ne_of_gt hpos)
    refine ⟨hcoeff, ?_⟩
    rw [correlationAssertion, hcoeff]
    norm_num
  · intro ym ye hlen hdot
    have hcorr : np_correlate ym ye = [0] := by
      rw [correlate_eq_of_len ym ye hlen, hdot]
    have hcoeff : norm_correlation_coeff ym ye = 0 := by
      rw [norm_correlation_coeff, hcorr, argmax_singleton]
      simp
    refine ⟨hcoeff, ?_⟩
    rw [correlationAssertion, hcoeff]
    norm_num

/-- Witness for c4_awg_correlation: the identical case at the nonzero
    waveform [1] and the orthogonal case at [1] against [0]. -/
theorem c4_awg_correlation_witness :
    (norm_correlation_coeff (y_expected [1] [] [] [])
        (y_expected [1] [] [] []) = 1 ∧
      correlationAssertion (y_expected [1] [] [] [])
        (y_expected [1] [] [] [])) ∧
    (norm_correlation_coeff [1] [0] = 0 ∧ ¬ correlationAssertion [1] [0]) :=
  ⟨c4_awg_correlation.1 [1] [] [] [] ⟨1, by simp, one_ne_zero⟩,
   c4_awg_correlation.2 [1] [0] rfl (by simp)⟩

/-- Claim C6 (status: confirmed).  After the two replace calls, the AWG
    program string contains no occurrence of the placeholders anymore: the
    waveform placeholder has been replaced by the comma-joined textual
    waveform data (ws lists the decimal representations of the AWG_N
    samples of waveform_2, none of which contains an underscore) and the
    constant placeholder by the decimal string of AWG_N. -/
theorem c6_placeholder_substitution (ws : List (List Char))
    (hlen : ws.length = AWG_N) (hchar : ∀ w ∈ ws, ∀ c ∈ w, c ≠ '_') :
    substitutedProgram (joinComma ws) =
      tmplA.data ++ (toString AWG_N).data ++ tmplB.data ++
        joinComma ws ++ tmplC.data ∧
    containsPat (substitutedProgram (joinComma ws)) "_w2_".data = false ∧
    containsPat (substitutedProgram (joinComma ws)) "_c1_".data = false := by
  have hsubchar : ∀ c ∈ joinComma ws, c ≠ '_' := by
    intro c hc
    rcases joinComma_mem c ws hc with h | ⟨w, hw, hcw⟩
    · subst h
      decide
    · exact hchar w hw c hcw
  have h2000 : (toString AWG_N).data = "2000".data := by decide
  have hc1head : "_c1_".data = '_' :: "c1_".data := by decide
  have hw2head : "_w2_".data = '_' :: "w2_".data := by decide
  have hsw_sub_c1 : startsWithin (joinComma ws) "_c1_".data tmplC.data = false := by
    rw [hc1head]
    exact startsWithin_head_notin '_' "c1_".data tmplC.data (joinComma ws) hsubchar
  have hsw_sub_w2 : startsWithin (joinComma ws) "_w2_".data tmplC.data = false := by
    rw [hw2head]
    exact startsWithin_head_notin '_' "w2_".data tmplC.data (joinComma ws) hsubchar
  have hsplit : awg_program_template.data =
      (tmplA.data ++ "_c1_".data ++ tmplB.data) ++ "_w2_".data ++ tmplC.data := by
    decide
  have hstep1 : strReplace awg_program_template.data "_w2_".data (joinComma ws) =
      (tmplA.data ++ "_c1_".data ++ tmplB.data) ++ joinComma ws ++ tmplC.data := by
    rw [hsplit,
      strReplace_split "_w2_".data (joinComma ws) (by decide) _ _
        (allWindowsMismatch_startsWithin _ _ _ (by decide)),
      strReplace_no_occurrence _ _ tmplC.data (by decide)]
  have hassoc : (tmplA.data ++ "_c1_".data ++ tmplB.data) ++ joinComma ws ++ tmplC.data =
      tmplA.data ++ "_c1_".data ++ (tmplB.data ++ (joinComma ws ++ tmplC.data)) := by
    simp [List.append_assoc]
  have hnoc1 : containsPat (tmplB.data ++ (joinComma ws ++ tmplC.data)) "_c1_".data = false := by
    rw [containsPat_append, containsPat_append,
      allWindowsMismatch_startsWithin tmplB.data "_c1_".data _ (by decide),
      hsw_sub_c1]
    simp only [Bool.false_or]
    decide
  have hstep2 : substitutedProgram (joinComma ws) =
      tmplA.data ++ (toString AWG_N).data ++ (tmplB.data ++ (joinComma ws ++ tmplC.data)) := by
    rw [substitutedProgram, hstep1, hassoc,
      strReplace_split "_c1_".data (toString AWG_N).data (by decide) tmplA.data _
        (allWindowsMismatch_startsWithin _ _ _ (by decide)),
      strReplace_no_occurrence _ _ _ hnoc1]
  have habs : substitutedProgram (joinComma ws) =
      tmplA.data ++ ("2000".data ++ (tmplB.data ++ (joinComma ws ++ tmplC.data))) := by
    rw [hstep2, h2000]
    simp [List.append_assoc]
  refine ⟨by rw [hstep2]; simp [List.append_assoc], ?_, ?_⟩
  · rw [habs, containsPat_append, containsPat_append, containsPat_append,
      containsPat_append,
      allWindowsMismatch_startsWithin tmplA.data _ _ (by decide),
      allWindowsMismatch_startsWithin ("2000".data) _ _ (by decide),
      allWindowsMismatch_startsWithin tmplB.data _ _ (by decide),
      hsw_sub_w2]
    simp only [Bool.false_or]
    decide
  · rw [habs, containsPat_append, containsPat_append, containsPat_append,
      containsPat_append,
      allWindowsMismatch_startsWithin tmplA.data _ _ (by decide),
      allWindowsMismatch_startsWithin ("2000".data) _ _ (by decide),
      allWindowsMismatch_startsWithin tmplB.data _ _ (by decide),
      hsw_sub_c1]
    simp only [Bool.false_or]
    decide

/-- Witness for c6_placeholder_substitution at 2000 copies of the sample
    text 0. -/
theorem c6_placeholder_substitution_witness :
    containsPat (substitutedProgram (joinComma
      (List.replicate 2000 (['0'] : List Char)))) "_w2_".data = false :=
  (c6_placeholder_substitution (List.replicate 2000 ['0'])
    (by rw [List.length_replicate, AWG_N])
    (by
      intro w hw c hc
      have hw0 := List.eq_of_mem_replicate hw
      subst hw0
      simp only [List.mem_singleton] at hc
      subst hc
      decide)).2.1

lemma depReadsSynced_polls (n : Nat) (d : Bool) (rest : List ApiCall) :
    depReadsSynced d (List.replicate n ApiCall.progressPoll ++ rest) =
      depReadsSynced d rest := by
  induction n with
  | zero => simp
  | succ m ih =>
    simp [List.replicate_succ, depReadsSynced, nextDirty, isDependentRead,
      isConfigWrite, ih]

lemma depReadsSynced_moduleOps (n : Nat) (op : String) (d : Bool)
    (rest : List ApiCall) :
    depReadsSynced d (List.replicate n (ApiCall.moduleOp op) ++ rest) =
      depReadsSynced d rest := by
  induction n with
  | zero => simp
  | succ m ih =>
    simp [List.replicate_succ, depReadsSynced, nextDirty, isDependentRead,
      isConfigWrite, ih]

/-- Claim C7 (status: confirmed).  In the vendor-API call trace of each
    example script, every dependent read (getSample in the demodulator
    example, the vectorWrite to the waveform slot in the AWG example) is
    issued only after a sync barrier that follows the last preceding
    configuration write: the scan that tracks writes not yet followed by
    a sync accepts both traces, for every device id, option set, waveform
    directory state, compilation outcome and loop iteration counts. -/
theorem c7_sync_before_dependent_read (device : String)
    (hasIA isHF2 waveDirOk failed : Bool) (mixer : Nat) (amp : ℚ)
    (kPoll nUpload nScope : Nat) :
    depReadsSynced false (connectTrace device hasIA isHF2 mixer amp) = true ∧
    depReadsSynced false
      (awgTrace device hasIA waveDirOk failed kPoll nUpload nScope) = true := by
  constructor
  · simp [connectTrace, depReadsSynced, nextDirty, isDependentRead,
      isConfigWrite]
  · cases waveDirOk <;> cases failed <;>
      simp [awgTrace, awgScopeConfig, depReadsSynced, nextDirty,
        isDependentRead, isConfigWrite, depReadsSynced_polls,
        depReadsSynced_moduleOps, List.append_assoc]

end LabSoftware
